import Mathlib

/-!
Verification of the gridsearch job-generation layer of phase2vec against its
specification.  The only sampled source file is `src/cli/_cli.py`; the helpers
it imports from `src/gridsearch.py` and `src/utils.py` (the scan expander, the
command wrappers, the job writer, the config store) are not among the sampled
sources and are modelled from the specification where a claim needs them; every
such definition is marked `Modelled from the spec:` in its doc comment.
Definitions that mirror code of `_cli.py` cite the lines they embed.
-/

namespace Phase2Vec

/-- A configuration document: an ordered mapping from parameter name to value,
mirroring the Python dicts the CLI passes around (spec §3 ParameterSet).
The value type is abstract: expansion never inspects values. -/
abbrev ParamSet (α : Type) := List (String × α)

/-- One scan group of the manifest: a mapping from parameter name to a list of
candidate values (spec §3 ScanSpec, §6 scan specification file). -/
abbrev ScanGroup (α : Type) := List (String × List α)

/-- Dict update for one key, as Python `d[k] = v`: replace the binding when the
key is present, append it otherwise. -/
def setKey {α : Type} (ps : ParamSet α) (k : String) (v : α) : ParamSet α :=
  if ps.any (fun p => p.1 == k) then
    ps.map (fun p => if p.1 == k then (k, v) else p)
  else
    ps ++ [(k, v)]

/-- Overlay a parameter set with one selection (one chosen value for every
parameter of one scan group). -/
def applySelection {α : Type} (ps : ParamSet α) (sel : ParamSet α) : ParamSet α :=
  sel.foldl (fun acc p => setKey acc p.1 p.2) ps

/-- The size of the axis a linked scan group contributes: its shared value-list
length (spec §3: within a linked group all value-sequences have identical
length, so the first list's length is the group's size). -/
def groupSize {α : Type} (g : ScanGroup α) : Nat :=
  match g with
  | [] => 0
  | p :: _ => p.2.length

/-- The `i`-th linked selection of a scan group: the value at index `i` of every
parameter of the group (spec §3: values at index i across all parameters in the
group are applied together). -/
def selectAt {α : Type} (g : ScanGroup α) (i : Nat) : ParamSet α :=
  g.filterMap (fun p => (p.2.get? i).map (fun v => (p.1, v)))

/-- All selections a scan group offers, in declaration order. -/
def selections {α : Type} (g : ScanGroup α) : List (ParamSet α) :=
  (List.range (groupSize g)).map (selectAt g)

/-- Modelled from the spec: the scan expander realized by
`generate_gridsearch_worker_params` (imported by `_cli.py` from
`src/gridsearch.py`, which is not among the sampled sources).  Spec §4.1:
compute the cross-product over independent scan groups, each linked group
contributing one axis; for every point overlay the base with the selected
values of each axis; axes traversed in declaration order with the
last-declared axis varying fastest; zero scans yield exactly the base. -/
def expand {α : Type} (base : ParamSet α) : List (ScanGroup α) → List (ParamSet α)
  | [] => [base]
  | g :: rest => (selections g).flatMap (fun sel => expand (applySelection base sel) rest)

theorem selections_length {α : Type} (g : ScanGroup α) :
    (selections g).length = groupSize g := by
  simp [selections]

theorem sum_map_eq_of_const {β : Type} (l : List β) (f : β → Nat) (c : Nat)
    (h : ∀ x ∈ l, f x = c) : (l.map f).sum = l.length * c := by
  induction l with
  | nil => simp
  | cons a l ih =>
      have ha : f a = c := h a (List.mem_cons_self a l)
      have hl : ∀ x ∈ l, f x = c := fun x hx => h x (List.mem_cons_of_mem a hx)
      simp [ha, ih hl, Nat.succ_mul, Nat.add_comm]

theorem expand_length {α : Type} (base : ParamSet α) (scans : List (ScanGroup α)) :
    (expand base scans).length = (scans.map groupSize).prod := by
  induction scans generalizing base with
  | nil => simp [expand]
  | cons g rest ih =>
      have hconst : ∀ sel ∈ selections g,
          (expand (applySelection base sel) rest).length = (rest.map groupSize).prod :=
        fun sel _ => ih (applySelection base sel)
      calc (expand base (g :: rest)).length
          = ((selections g).map
              (fun sel => (expand (applySelection base sel) rest).length)).sum := by
            simp only [expand, List.length_flatMap]
            rfl
        _ = (selections g).length * (rest.map groupSize).prod :=
            sum_map_eq_of_const _ _ _ hconst
        _ = ((g :: rest).map groupSize).prod := by
            simp [selections_length]

theorem expand_mem_iff {α : Type} (base : ParamSet α) (scans : List (ScanGroup α))
    (ps : ParamSet α) :
    ps ∈ expand base scans ↔
      ∃ sels : List (ParamSet α),
        List.Forall₂ (fun sel g => sel ∈ selections g) sels scans ∧
        ps = sels.foldl applySelection base := by
  induction scans generalizing base with
  | nil =>
      constructor
      · intro h
        refine ⟨[], List.Forall₂.nil, ?_⟩
        simpa [expand] using h
      · rintro ⟨sels, hf, hps⟩
        cases hf
        simpa [expand] using hps
  | cons g rest ih =>
      constructor
      · intro h
        rw [expand, List.mem_flatMap] at h
        obtain ⟨sel, hsel, hmem⟩ := h
        obtain ⟨sels, hf, hps⟩ := (ih (applySelection base sel)).1 hmem
        exact ⟨sel :: sels, List.Forall₂.cons hsel hf, by simpa using hps⟩
      · rintro ⟨sels, hf, hps⟩
        cases hf with
        | cons hsel hrest =>
            rw [expand, List.mem_flatMap]
            rename_i sel sels'
            refine ⟨sel, hsel, ?_⟩
            exact (ih (applySelection base sel)).2 ⟨sels', hrest, by simpa using hps⟩

/-- Claim C2: for every scan specification with k independent scan axes (each
linked group contributing one axis whose size is its shared list length),
`expand` produces exactly n₁ × … × nₖ parameter sets, each equal to the base
set overlaid with exactly one selected value per axis. -/
theorem expand_product_count_and_full_overlay {α : Type} (base : ParamSet α)
    (scans : List (ScanGroup α)) :
    (expand base scans).length = (scans.map groupSize).prod ∧
    ∀ ps ∈ expand base scans,
      ∃ sels : List (ParamSet α),
        List.Forall₂ (fun sel g => sel ∈ selections g) sels scans ∧
        ps = sels.foldl applySelection base :=
  ⟨expand_length base scans, fun ps hps => (expand_mem_iff base scans ps).1 hps⟩

/-- Witness for C2 at a concrete two-axis scan: the hypothesis (membership in
the expansion) holds at a concrete expanded set and the conclusion follows. -/
theorem expand_product_count_and_full_overlay_witness :
    (([("epochs", "10"), ("lr", "0.001"), ("seed", "0")] : ParamSet String)
        ∈ expand [("epochs", "10")] [[("lr", ["0.001", "0.01"])], [("seed", ["0"])]]) ∧
    (∃ sels : List (ParamSet String),
        List.Forall₂ (fun sel g => sel ∈ selections g) sels
          [[("lr", ["0.001", "0.01"])], [("seed", ["0"])]] ∧
        ([("epochs", "10"), ("lr", "0.001"), ("seed", "0")] : ParamSet String)
          = sels.foldl applySelection [("epochs", "10")]) :=
  ⟨by decide,
    (expand_product_count_and_full_overlay [("epochs", "10")]
        [[("lr", ["0.001", "0.01"])], [("seed", ["0"])]]).2
      [("epochs", "10"), ("lr", "0.001"), ("seed", "0")] (by decide)⟩

/-- Claim C3: a linked scan group binding lr to [0.001, 0.01] and beta to
[1, 2] expands to exactly 2 jobs, not 4, paired positionally:
(lr=0.001, beta=1) and (lr=0.01, beta=2). -/
theorem linked_group_pairs_positionally :
    expand ([] : ParamSet String) [[("lr", ["0.001", "0.01"]), ("beta", ["1", "2"])]]
      = [[("lr", "0.001"), ("beta", "1")], [("lr", "0.01"), ("beta", "2")]] ∧
    (expand ([] : ParamSet String)
        [[("lr", ["0.001", "0.01"]), ("beta", ["1", "2"])]]).length = 2 := by
  constructor
  · decide
  · decide

/-- Model of `os.path.join` for the relative second components the CLI uses
(lines 406, 436): insert a separator unless the first component already ends
in one. -/
def joinPath (a b : String) : String :=
  if a.endsWith "/" then a ++ b else a ++ "/" ++ b

/-- A filesystem action the dispatch layer can perform; `_cli.py` only reads
the scan file, creates the save directory and writes job files. -/
inductive FsEffect where
  | readFile (path : String)
  | makeDir (path : String)
  | writeFile (path : String)
deriving DecidableEq

/-- Whether an effect writes to disk (creating a directory counts). -/
def FsEffect.isDiskWrite : FsEffect → Bool
  | .readFile _ => false
  | .makeDir _ => true
  | .writeFile _ => true

/-- The gridsearch manifest read from the scan file (spec §3
GridsearchManifest, §6 scan specification file). -/
structure Manifest where
  gs_name : String
  scans : List (ScanGroup String)
  parameters : ParamSet String
deriving DecidableEq

/-- The arguments of `write-gridsearch-jobs` (lines 384-393): the scan file,
the save directory, the backend discriminator and the four SLURM resource
options. -/
structure GridsearchCLIArgs where
  scanFile : String
  saveDir : String
  clusterType : String
  slurmPartition : String
  slurmNcpus : Nat
  slurmMemory : String
  slurmWallTime : String
deriving DecidableEq

/-- The per-job wrap function selected by `write_gridsearch_jobs` (lines
399-405): either the local wrapper, with no resource parameters, or the SLURM
wrapper partially applied to the four resource options. -/
inductive ClusterWrap where
  | localWrap
  | slurmWrap (partition : String) (ncpus : Nat) (memory : String) (wallTime : String)
deriving DecidableEq

/-- A wrapped job command (spec §4.3): a plain command line for local, a
submission command plus a batch script for SLURM. -/
inductive WrappedCommand where
  | localCmd (cmd : String)
  | slurmCmd (cmd : String) (batchScript : String)
deriving DecidableEq

/-- A materialized job (spec §3 JobDescriptor): its name and the path of its
persisted configuration file. -/
structure Job where
  jobName : String
  configPath : String
deriving DecidableEq

/-- Modelled from the spec: `wrap_command_with_local` (imported from
`src/gridsearch.py`, not among the sampled sources).  Spec §4.3: a directly
executable invocation of the training entrypoint with the job's config file. -/
def wrap_command_with_local (job : Job) : WrappedCommand :=
  .localCmd ("phase2vec train --config-file " ++ job.configPath)

/-- Modelled from the spec: `wrap_command_with_slurm` (imported from
`src/gridsearch.py`, not among the sampled sources).  Spec §4.3: emits a batch
script carrying the partition, cpu, memory and wall-time directives around the
same training invocation, and returns the queue-submission command. -/
def wrap_command_with_slurm (job : Job) (partition : String) (ncpus : Nat)
    (memory : String) (wallTime : String) : WrappedCommand :=
  .slurmCmd ("sbatch " ++ job.jobName ++ ".sbatch")
    ("#SBATCH -p " ++ partition ++ "\n#SBATCH -c " ++ toString ncpus ++
      "\n#SBATCH --mem " ++ memory ++ "\n#SBATCH -t " ++ wallTime ++
      "\nphase2vec train --config-file " ++ job.configPath)

/-- Apply the selected wrap function to one job. -/
def wrapJob : ClusterWrap → Job → WrappedCommand
  | .localWrap, j => wrap_command_with_local j
  | .slurmWrap p n m w, j => wrap_command_with_slurm j p n m w

/-- The backend-selection branch of `write_gridsearch_jobs` (lines 399-405):
`local` picks the local wrapper, `slurm` picks the SLURM wrapper partially
applied to the four CLI resource options, anything else raises. -/
def selectClusterWrap (a : GridsearchCLIArgs) : Except String ClusterWrap :=
  if a.clusterType = "local" then .ok .localWrap
  else if a.clusterType = "slurm" then
    .ok (.slurmWrap a.slurmPartition a.slurmNcpus a.slurmMemory a.slurmWallTime)
  else .error ("Unsupported cluster-type " ++ a.clusterType)

/-- The i-th materialized job under a save directory (spec §4.2: one config
file per variant under the save directory). -/
def jobFor (saveDir : String) (i : Nat) : Job :=
  { jobName := "job_" ++ toString i,
    configPath := joinPath saveDir ("job_" ++ toString i ++ ".yaml") }

/-- Modelled from the spec: `write_jobs` (imported from `src/gridsearch.py`,
not among the sampled sources).  Spec §4.2/§4.4: materializes one config file
per variant under the save directory, wraps every job with the single wrap
function it was given, and persists the wrapped commands.  Returns the wrapped
commands and the file effects performed. -/
def write_jobs (workerDicts : List (ParamSet String)) (wrapCfg : ClusterWrap)
    (saveDir : String) : List WrappedCommand × List FsEffect :=
  let jobs := (List.range workerDicts.length).map (jobFor saveDir)
  (jobs.map (wrapJob wrapCfg),
   jobs.flatMap (fun j =>
     [FsEffect.writeFile j.configPath,
      FsEffect.writeFile (joinPath saveDir (j.jobName ++ ".cmd"))]))

/-- What one run of the command produced on success: the count reported on
stderr (line 409: the length of `worker_dicts`), the wrapped commands, and the
file effects in program order. -/
structure DispatchResult where
  reportedCount : Nat
  commands : List WrappedCommand
  effects : List FsEffect
deriving DecidableEq

/-- Outcome of `write-gridsearch-jobs`: failure carries the error message and
the effects performed before the raise. -/
inductive DispatchOutcome where
  | failure (message : String) (effects : List FsEffect)
  | success (r : DispatchResult)
deriving DecidableEq

/-- `write_gridsearch_jobs` (lines 393-409) with filesystem effects made
explicit, in program order: `generate_gridsearch_worker_params` reads the scan
file and expands the manifest (modelled from spec §4.1 as pure expansion, no
side effects); the backend branch then either raises or selects the wrap
function; only then is the scan file re-read for `gs_name` (line 406), the
save directory created (line 407) and the jobs written (line 408). -/
def write_gridsearch_jobs (a : GridsearchCLIArgs) (m : Manifest) : DispatchOutcome :=
  let readEffs := [FsEffect.readFile a.scanFile]
  let workerDicts := expand m.parameters m.scans
  match selectClusterWrap a with
  | .error msg => .failure msg readEffs
  | .ok wrapCfg =>
      let fullSaveDir := joinPath a.saveDir m.gs_name
      let written := write_jobs workerDicts wrapCfg fullSaveDir
      .success
        { reportedCount := workerDicts.length,
          commands := written.1,
          effects := readEffs ++ [FsEffect.readFile a.scanFile,
            FsEffect.makeDir fullSaveDir] ++ written.2 }

/-- Claim C1: with a cluster type that is neither `local` nor `slurm` the
command fails with the unsupported-cluster-type error, and the only effect
performed before the raise is reading the scan file — nothing has been written
to disk. -/
theorem unsupported_cluster_type_fails_before_writes (a : GridsearchCLIArgs)
    (m : Manifest) (hl : a.clusterType ≠ "local") (hs : a.clusterType ≠ "slurm") :
    write_gridsearch_jobs a m =
      .failure ("Unsupported cluster-type " ++ a.clusterType)
        [FsEffect.readFile a.scanFile] ∧
    ∀ e ∈ [FsEffect.readFile a.scanFile], e.isDiskWrite = false := by
  constructor
  · simp [write_gridsearch_jobs, selectClusterWrap, hl, hs]
  · intro e he
    simp at he
    simp [he, FsEffect.isDiskWrite]

/-- Witness for C1: a concrete unsupported cluster type. -/
theorem unsupported_cluster_type_fails_before_writes_witness :
    (("sge" : String) ≠ "local") ∧ (("sge" : String) ≠ "slurm") ∧
    (write_gridsearch_jobs
        { scanFile := "scan.yaml", saveDir := "out", clusterType := "sge",
          slurmPartition := "main", slurmNcpus := 1, slurmMemory := "2GB",
          slurmWallTime := "6:00:00" }
        { gs_name := "gs_x", scans := [], parameters := [] } =
      .failure "Unsupported cluster-type sge" [FsEffect.readFile "scan.yaml"]) :=
  ⟨by decide, by decide,
    (unsupported_cluster_type_fails_before_writes
        { scanFile := "scan.yaml", saveDir := "out", clusterType := "sge",
          slurmPartition := "main", slurmNcpus := 1, slurmMemory := "2GB",
          slurmWallTime := "6:00:00" }
        { gs_name := "gs_x", scans := [], parameters := [] }
        (by decide) (by decide)).1⟩

/-- Modelled from the spec: the Job Writer count discipline (spec §4.4; the
`write_jobs` source in `src/gridsearch.py` is not among the sampled sources).
`writeBudget` is an explicit fault knob modelling the output list being
truncated before the last write; the writer counts the jobs that actually
landed and raises `IncompleteDispatchError` on any mismatch instead of
returning a partial success. -/
def write_jobs_counted (jobs : List (ParamSet String)) (writeBudget : Nat) :
    Except String Nat :=
  let written := (jobs.take writeBudget).length
  if written = jobs.length then .ok written else .error "IncompleteDispatchError"

/-- Claim C4: the job count reported by the job-writing step equals the number
of expanded variants (line 409 reports the length of `worker_dicts`), a count
the writer returns successfully always equals the input job count, and
truncating the output list before the last write raises
`IncompleteDispatchError` rather than reporting partial success. -/
theorem job_count_matches_variants_or_incomplete_dispatch (a : GridsearchCLIArgs)
    (m : Manifest) (jobs : List (ParamSet String)) (writeBudget n : Nat) :
    (∀ r, write_gridsearch_jobs a m = .success r →
        r.reportedCount = (expand m.parameters m.scans).length ∧
        r.commands.length = (expand m.parameters m.scans).length) ∧
    (write_jobs_counted jobs writeBudget = .ok n → n = jobs.length) ∧
    (writeBudget < jobs.length →
        write_jobs_counted jobs writeBudget = .error "IncompleteDispatchError") := by
  refine ⟨?_, ?_, ?_⟩
  · intro r hr
    unfold write_gridsearch_jobs at hr
    cases hsel : selectClusterWrap a with
    | error msg => rw [hsel] at hr; exact absurd hr (by simp)
    | ok wrapCfg =>
        rw [hsel] at hr
        simp only [DispatchOutcome.success.injEq] at hr
        subst hr
        simp [write_jobs]
  · intro h
    unfold write_jobs_counted at h
    by_cases hc : (jobs.take writeBudget).length = jobs.length
    · rw [if_pos hc] at h
      simp only [Except.ok.injEq] at h
      omega
    · rw [if_neg hc] at h
      exact absurd h (by simp)
  · intro hlt
    unfold write_jobs_counted
    rw [if_neg]
    simp only [List.length_take]
    omega

/-- Witness for C4: with two expanded variants and a write budget of one the
writer raises `IncompleteDispatchError`, and a concrete local run reports a
count equal to its variant count. -/
theorem job_count_matches_variants_or_incomplete_dispatch_witness :
    (1 < ([[("lr", "0.001")], [("lr", "0.01")]] : List (ParamSet String)).length) ∧
    write_jobs_counted [[("lr", "0.001")], [("lr", "0.01")]] 1 =
      .error "IncompleteDispatchError" :=
  ⟨by decide,
    (job_count_matches_variants_or_incomplete_dispatch
        { scanFile := "scan.yaml", saveDir := "out", clusterType := "local",
          slurmPartition := "main", slurmNcpus := 1, slurmMemory := "2GB",
          slurmWallTime := "6:00:00" }
        { gs_name := "gs_x", scans := [], parameters := [] }
        [[("lr", "0.001")], [("lr", "0.01")]] 1 0).2.2 (by decide)⟩

/-- Claim C5: for `slurm` the selected wrap function is the SLURM wrapper
parameterized with exactly the four CLI resource options; for `local` it is
the local wrapper with no resource parameters; and one run applies the one
selected wrap function uniformly to all jobs. -/
theorem cluster_wrap_selection_and_uniformity (a : GridsearchCLIArgs) (m : Manifest) :
    (a.clusterType = "slurm" →
        selectClusterWrap a =
          .ok (.slurmWrap a.slurmPartition a.slurmNcpus a.slurmMemory a.slurmWallTime)) ∧
    (a.clusterType = "local" → selectClusterWrap a = .ok .localWrap) ∧
    (∀ wrapCfg r, selectClusterWrap a = .ok wrapCfg →
        write_gridsearch_jobs a m = .success r →
        r.commands =
          ((List.range (expand m.parameters m.scans).length).map
              (jobFor (joinPath a.saveDir m.gs_name))).map (wrapJob wrapCfg)) := by
  refine ⟨?_, ?_, ?_⟩
  · intro h
    simp [selectClusterWrap, h]
  · intro h
    simp [selectClusterWrap, h]
  · intro wrapCfg r hsel hr
    unfold write_gridsearch_jobs at hr
    rw [hsel] at hr
    simp only [DispatchOutcome.success.injEq] at hr
    subst hr
    simp [write_jobs]

/-- Witness for C5: at a concrete SLURM invocation the selected wrapper carries
exactly the four resource options. -/
theorem cluster_wrap_selection_and_uniformity_witness :
    (("slurm" : String) = "slurm") ∧
    selectClusterWrap
        { scanFile := "scan.yaml", saveDir := "out", clusterType := "slurm",
          slurmPartition := "gpu", slurmNcpus := 4, slurmMemory := "8GB",
          slurmWallTime := "12:00:00" } =
      .ok (.slurmWrap "gpu" 4 "8GB" "12:00:00") :=
  ⟨rfl,
    (cluster_wrap_selection_and_uniformity
        { scanFile := "scan.yaml", saveDir := "out", clusterType := "slurm",
          slurmPartition := "gpu", slurmNcpus := 4, slurmMemory := "8GB",
          slurmWallTime := "12:00:00" }
        { gs_name := "gs_x", scans := [], parameters := [] }).1 rfl⟩

/-- A value of the YAML document `generate-gridsearch-config` writes: a string,
a scan list or a parameter set. -/
inductive YamlValue where
  | strV (s : String)
  | scansV (gs : List (ScanGroup String))
  | paramsV (ps : ParamSet String)
deriving DecidableEq

/-- `generate_gridsearch_config` (lines 415-428): the dict written to the
output file, in construction order — `scans` from the default scan provider,
`parameters` from the train command's defaults, `gs_name` as the literal
`gs_` prepended to the current timestamp.  `timestamp`,
`get_gridsearch_default_scans` and `get_command_defaults` live in modules not
among the sampled sources and enter as parameters. -/
def generate_gridsearch_config (ts : String) (defaultScans : List (ScanGroup String))
    (trainDefaults : ParamSet String) : List (String × YamlValue) :=
  [("scans", .scansV defaultScans),
   ("parameters", .paramsV trainDefaults),
   ("gs_name", .strV ("gs_" ++ ts))]

/-- Claim C6: the written manifest contains exactly the fields `gs_name`,
`scans` and `parameters`; `gs_name` is the string `gs_` concatenated with the
current timestamp, so two runs at distinct timestamps get distinct names; and
`parameters` equals the train command's default parameter set. -/
theorem gridsearch_config_fields_and_name (ts ts₂ : String)
    (defaultScans : List (ScanGroup String)) (trainDefaults : ParamSet String) :
    (generate_gridsearch_config ts defaultScans trainDefaults).map Prod.fst =
      ["scans", "parameters", "gs_name"] ∧
    (generate_gridsearch_config ts defaultScans trainDefaults).lookup "gs_name" =
      some (.strV ("gs_" ++ ts)) ∧
    (generate_gridsearch_config ts defaultScans trainDefaults).lookup "parameters" =
      some (.paramsV trainDefaults) ∧
    (generate_gridsearch_config ts defaultScans trainDefaults).lookup "scans" =
      some (.scansV defaultScans) ∧
    (ts ≠ ts₂ → ("gs_" ++ ts : String) ≠ ("gs_" ++ ts₂ : String)) := by
  refine ⟨rfl, ?_, ?_, ?_, ?_⟩
  · simp [generate_gridsearch_config, List.lookup]
  · simp [generate_gridsearch_config, List.lookup]
  · simp [generate_gridsearch_config, List.lookup]
  · intro hne heq
    apply hne
    have hdata : ("gs_" ++ ts).data = ("gs_" ++ ts₂).data := by rw [heq]
    simp only [String.data_append] at hdata
    have hd : ts.data = ts₂.data := by
      simpa using hdata
    cases ts
    cases ts₂
    exact congrArg String.mk hd

/-- Witness for C6: two concrete distinct timestamps yield distinct run
names. -/
theorem gridsearch_config_fields_and_name_witness :
    (("20220101" : String) ≠ "20220102") ∧
    (("gs_" ++ "20220101" : String) ≠ ("gs_" ++ "20220102" : String)) :=
  ⟨by decide,
    (gridsearch_config_fields_and_name "20220101" "20220102" [] []).2.2.2.2
      (by decide)⟩

/-- The arguments of the one `to_csv` call of `aggregate_gridsearch_results`
(line 436). -/
structure CsvWriteCall where
  path : String
  sep : Char
  withIndex : Bool
deriving DecidableEq

/-- `aggregate_gridsearch_results` (lines 434-436): builds the aggregate table
(`results_to_df`, external, does not affect the output location) and writes it
tab-separated to `gridsearch-aggregate-results.tsv` joined onto the results
directory. -/
def aggregate_gridsearch_results (resultsDirectory : String) : CsvWriteCall :=
  { path := joinPath resultsDirectory "gridsearch-aggregate-results.tsv",
    sep := '\t',
    withIndex := false }

/-- Claim C7: the aggregated table goes to a file named exactly
`gridsearch-aggregate-results.tsv` joined directly onto the given results
directory (the file name holds no further separator), written tab-separated. -/
theorem aggregate_results_path_and_separator (resultsDirectory : String) :
    (aggregate_gridsearch_results resultsDirectory).path =
      joinPath resultsDirectory "gridsearch-aggregate-results.tsv" ∧
    (aggregate_gridsearch_results resultsDirectory).sep = '\t' ∧
    ∀ c ∈ "gridsearch-aggregate-results.tsv".data, c ≠ '/' :=
  ⟨rfl, rfl, by decide⟩

/-- Witness for C7: the theorem applied to a concrete results directory, its
membership hypothesis discharged at a concrete character of the file name. -/
theorem aggregate_results_path_and_separator_witness :
    ('g' ∈ "gridsearch-aggregate-results.tsv".data) ∧ ('g' : Char) ≠ '/' :=
  ⟨by decide, (aggregate_results_path_and_separator "results").2.2 'g' (by decide)⟩

/-- The constructor arguments of a click `Option` that matter to the patch:
the declared name and whether the caller asked for the default to be shown. -/
structure OptionCtorArgs where
  declName : String
  requestedShowDefault : Bool
deriving DecidableEq

/-- A constructed click `Option`, reduced to the fields the patch touches. -/
structure ClickOption where
  declName : String
  show_default : Bool
deriving DecidableEq

/-- The original `click.core.Option.__init__` (line 25): honours the
constructor arguments, including the requested `show_default`. -/
def orig_init (args : OptionCtorArgs) : ClickOption :=
  { declName := args.declName, show_default := args.requestedShowDefault }

/-- `new_init` (lines 28-33), installed as `click.core.Option.__init__` at
module load: run the original constructor, then force `show_default := true`. -/
def new_init (args : OptionCtorArgs) : ClickOption :=
  let o := orig_init args
  { o with show_default := true }

/-- Claim C8: after the module is loaded every click option is constructed by
`new_init`, so its `show_default` is `true` regardless of what the constructor
arguments requested (in particular even when they requested `false`, which the
unpatched constructor would have honoured), while the other fields are those
the original constructor produced. -/
theorem patched_option_always_shows_default (args : OptionCtorArgs) :
    (new_init args).show_default = true ∧
    (new_init args).declName = (orig_init args).declName ∧
    (new_init { args with requestedShowDefault := false }).show_default = true ∧
    (orig_init { args with requestedShowDefault := false }).show_default = false :=
  ⟨rfl, rfl, rfl, rfl⟩

/-- A Python runtime error the CLI callbacks can hit before doing any work. -/
inductive PyError where
  | typeError (msg : String)
  | nameError (msg : String)
deriving DecidableEq

/-- The parameter list of the `call_train` callback as written on line 156 of
`_cli.py`, in order. -/
def call_train_signature_params : List String :=
  ["data_config", "net_config", "exp_name", "num_epochs", "batch_size", "beta",
   "fp_normalize", "poly_order", "device", "optimizer", "learning_rate",
   "momentum", "model_save_dir", "log_dir", "log_period", "seed", "config_file"]

/-- The argument and option declarations stacked on the `train` command
(lines 140-155), by their declared names. -/
def call_train_decorator_params : List String :=
  ["data-config", "net-config", "--exp-name", "--num-epochs", "--batch-size",
   "--beta", "--fp_normalize", "--device", "--optimizer", "--learning-rate",
   "--momentum", "--model-save-dir", "--log-dir", "--log-period", "--seed",
   "--config-file"]

/-- Turn a dash into an underscore, leave every other character alone. -/
def dashToUnderscore (c : Char) : Char :=
  if c = '-' then '_' else c

/-- How click derives a callback keyword from a declared parameter name: strip
the leading dashes and turn the remaining dashes into underscores. -/
def clickParamName (s : String) : String :=
  String.mk ((s.data.dropWhile (fun c => c = '-')).map dashToUnderscore)

/-- The keyword arguments click supplies when it invokes the `train` callback:
one per declared argument/option, nothing else. -/
def call_train_supplied_params : List String :=
  call_train_decorator_params.map clickParamName

/-- Python's call-binding step: every parameter of the signature must be bound
by a supplied keyword, otherwise the call raises `TypeError` naming the first
missing parameter and the body never starts. -/
def bindCallArgs (sig supplied : List String) : Except PyError Unit :=
  match sig.filter (fun p => !(supplied.contains p)) with
  | [] => .ok ()
  | p :: _ =>
      .error (.typeError ("call_train() missing 1 required positional argument: " ++ p))

/-- Invoking the `train` callback: click binds its collected parameters to the
signature before one line of the body (lines 157-198) runs; on a binding
failure the body's effects — including the `read_yaml` of the two configs —
never happen. -/
def invoke_call_train (bodyEffects : List FsEffect) :
    Except PyError Unit × List FsEffect :=
  match bindCallArgs call_train_signature_params call_train_supplied_params with
  | .ok () => (.ok (), bodyEffects)
  | .error e => (.error e, [])

/-- Claim C9: every invocation of `train` fails with a `TypeError` before
executing any of its body and before reading any config file, because the
callback declares `poly_order`, for which no argument or option exists, so
click never supplies it. -/
theorem call_train_always_raises_type_error (bodyEffects : List FsEffect) :
    invoke_call_train bodyEffects =
      (.error (.typeError "call_train() missing 1 required positional argument: poly_order"),
        []) ∧
    "poly_order" ∈ call_train_signature_params ∧
    call_train_supplied_params.contains "poly_order" = false :=
  ⟨rfl, by decide, by decide⟩

/-- Names bound at module level of `_cli.py` (lines 1-39 and the command
definitions): imports, the patched constructor pair, and the commands. -/
def cli_module_names : List String :=
  ["os", "sys", "click", "uuid", "time", "np",
   "train_model", "run_epoch", "load_model", "Visualizer", "VisualizerGridsearch",
   "generate_gridsearch_worker_params", "get_gridsearch_default_scans",
   "results_to_df", "wrap_command_with_local", "wrap_command_with_slurm",
   "write_jobs", "command_with_config", "ensure_dir", "get_command_defaults",
   "update_yaml", "write_yaml", "read_yaml", "timestamp", "strtuple_to_list",
   "str_to_list", "get_last_config", "SystemFamily", "sindy_library",
   "load_dataset", "train_test_split", "KFold", "LogisticRegressionCV",
   "classification_report", "torch", "orig_init", "new_init", "cli",
   "generate_dataset", "call_train", "evaluate", "classify",
   "generate_net_config", "generate_data_config", "generate_train_config",
   "visualize", "write_gridsearch_jobs", "generate_gridsearch_config",
   "aggregate_gridsearch_results", "visualize_gridsearch", "warnings"]

/-- The local names of `classify` in scope when control reaches the branch on
line 292: its parameters (line 260) and the locals assigned on lines 262-290. -/
def classify_local_names : List String :=
  ["data_path", "feature_name", "classifier", "results_dir", "penalty", "num_c",
   "k", "multi_class", "verbose", "seed", "output_file",
   "X_train", "X_test", "y_train", "y_test", "p_train", "p_test",
   "z_train", "z_test", "Cs", "kf", "clf_params"]

/-- Name resolution inside `classify`: locals first, then the module scope. -/
def classify_scope : List String := classify_local_names ++ cli_module_names

/-- An observable action of a `classify` run. -/
inductive RunEffect where
  | fileLoad (path : String)
  | modelFit (clsName : String)
  | modelSave (path : String)
deriving DecidableEq

/-- Whether an effect fits a model. -/
def RunEffect.isModelFit : RunEffect → Bool
  | .modelFit _ => true
  | _ => false

/-- Whether an effect saves a fitted model or report. -/
def RunEffect.isModelSave : RunEffect → Bool
  | .modelSave _ => true
  | _ => false

/-- `classify` (lines 260-302) up to its branch: load the dataset and the two
embedding files, build the cross-validation parameters, then select the
classifier — `if classifier == 'logistic_regressor'` fits and saves, the
`elif` evaluates the bare name `clasisfier`, which raises `NameError` unless
some enclosing scope defines it. -/
def classify_run (dataPath resultsDir featureName classifier outputFile : String) :
    Except PyError Unit × List RunEffect :=
  let loads := [RunEffect.fileLoad dataPath,
                RunEffect.fileLoad (joinPath resultsDir (featureName ++ "_train.npy")),
                RunEffect.fileLoad (joinPath resultsDir (featureName ++ "_test.npy"))]
  if classifier = "logistic_regressor" then
    (.ok (), loads ++ [RunEffect.modelFit "LogisticRegressionCV",
      RunEffect.modelSave (joinPath resultsDir outputFile)])
  else if classify_scope.contains "clasisfier" then
    (.ok (), loads)
  else
    (.error (.nameError "name 'clasisfier' is not defined"), loads)

/-- Claim C10: for every input, `classify --classifier k_means` fails with a
`NameError` and never fits or saves a model: the selecting branch tests the
undefined name `clasisfier`, and `KMeans` is bound nowhere in the module
either. -/
theorem classify_k_means_raises_name_error
    (dataPath resultsDir featureName outputFile : String) :
    (classify_run dataPath resultsDir featureName "k_means" outputFile).1 =
      .error (.nameError "name 'clasisfier' is not defined") ∧
    ((classify_run dataPath resultsDir featureName "k_means" outputFile).2.all
      (fun e => !(e.isModelFit || e.isModelSave))) = true ∧
    classify_scope.contains "clasisfier" = false ∧
    classify_scope.contains "KMeans" = false := by
  refine ⟨?_, ?_, by decide, by decide⟩
  · simp [classify_run, classify_scope, classify_local_names, cli_module_names]
  · simp [classify_run, classify_scope, classify_local_names, cli_module_names,
      RunEffect.isModelFit, RunEffect.isModelSave]

end Phase2Vec
